import Mathlib

/-!
Verification of the acodex-server terminal session bridge
(`src/terminal-server.ts`).

The source is a Node/Express server that spawns pty-backed shell sessions,
buffers their output while no websocket is attached, and streams output to
an attached websocket.  We embed the server's observable state and its
event handlers as a shallow state machine:

* `Session` mirrors the record stored in the module-level `sessions` map:
  the pty handle (`term`), the headless terminal (`xterm`) with its
  serialize addon, the string buffer `terminalData`, and the two
  disposables `temporaryDisposable` / `dataHandler`.
* pty `onData` listeners are modelled as a list in registration order
  (`listeners`); `onData` allows several simultaneous listeners, each
  `dispose` removes exactly one.  The `temporaryDisposable` record field
  and its listener are created and removed together, so presence of
  `Listener.temp` in the list models both.
* Websockets are modelled by `WsConn`: an id, the session pid the
  connection was routed to, an open flag, and the transcript of messages
  the server sent to it.  `ws.send` on a closed socket throws and the
  source swallows that inside `try/catch`, so a send to a closed socket
  changes nothing.
* Byte/character sequences are `List Char`; the external
  `SerializeAddon.serialize()` is an abstract function
  `σ : List (List Char) → List Char` of the write history of the `xterm`
  model, passed as a parameter to the operations that call it.
* Global counters `killCalls` / `disposeCalls` count `term.kill()` and
  `xterm.dispose()` invocations across the run, so that teardown
  multiplicity is observable after the session record is deleted.
-/

namespace AcodexServer

/-- A chunk of terminal output / a websocket message body. -/
abbrev Chunk := List Char

/-- JS whitespace accepted by `parseInt` before the number. -/
def isJsSpace (c : Char) : Bool :=
  c == ' ' || c == '\t' || c == '\n' || c == '\r'

/-- Value of a list of decimal digit characters. -/
def digitsToNat (ds : List Char) : Nat :=
  ds.foldl (fun a c => a * 10 + (c.toNat - 48)) 0

/-- Helper for `jsParseInt`: parse the leading decimal digits of `cs`,
with sign `sgn`; `none` models JavaScript `NaN` (no digits found). -/
def jsParseDigits (cs : List Char) (sgn : Int) : Option Int :=
  let ds := cs.takeWhile Char.isDigit
  if ds.isEmpty then none else some (sgn * (digitsToNat ds : Int))

/-- JavaScript `parseInt(s, 10)`: skip whitespace, optional sign, longest
prefix of decimal digits; `none` models `NaN`.  (The model uses exact
integers where JS uses doubles; the server only handles small values.) -/
def jsParseInt (s : String) : Option Int :=
  let cs := s.toList.dropWhile isJsSpace
  match cs with
  | '-' :: t => jsParseDigits t (-1)
  | '+' :: t => jsParseDigits t 1
  | _ => jsParseDigits cs 1

/-- JavaScript `v || d` for a parsed integer: `NaN` and `0` are falsy and
give the default `d` (source: `colsInt || 80`, `rowsInt || 24`). -/
def jsOrDefault (v : Option Int) (d : Int) : Int :=
  match v with
  | some n => if n = 0 then d else n
  | none => d

/-- `true` iff the string parses (JS `parseInt`) to a nonzero integer,
i.e. iff `parseInt(s,10)` is truthy. -/
def parsesNonzeroB (s : String) : Bool :=
  match jsParseInt s with
  | some n => decide (n ≠ 0)
  | none => false

/-- The pty process handle (`node-pty` `term`).  Dimensions are
`Option Int` because a resize with an unparsable query stores `NaN`
(modelled as `none`).  `exitListeners` counts `onExit` registrations
(each registered callback performs the same teardown). -/
structure Term where
  pid : Nat
  cols : Option Int
  rows : Option Int
  exitListeners : Nat
deriving DecidableEq

/-- The headless terminal (`xterm-headless` `Terminal`): dimensions and
the ordered history of chunks written into it.  The serialize addon's
output is an abstract function of this write history. -/
structure ScreenModel where
  cols : Option Int
  rows : Option Int
  writes : List Chunk
deriving DecidableEq

/-- One active pty `onData` listener, in registration order.
`temp` is the buffer-appending listener installed at creation
(`temporaryDisposable`); `dh` is a data handler installed on websocket
attach, identified by the disposable id `id` and bound to websocket `ws`. -/
inductive Listener where
  | temp : Listener
  | dh (id : Nat) (ws : Nat) : Listener
deriving DecidableEq

/-- One entry of the `sessions` map. -/
structure Session where
  term : Term
  xterm : ScreenModel
  addonDisposed : Bool
  terminalData : Chunk
  listeners : List Listener
  dataHandler : Option Nat
deriving DecidableEq

/-- A websocket connection: its id, the session pid it was routed to,
whether it is open, and the transcript of messages the server sent it. -/
structure WsConn where
  id : Nat
  pid : Nat
  isOpen : Bool
  received : List Chunk
deriving DecidableEq

/-- The whole observable server state: the `sessions` registry (keys
unique, JS object semantics), all websocket connections, a counter
supplying distinct disposable identities, and global counters of
`term.kill()` and `xterm.dispose()` calls. -/
structure ServerState where
  sessions : List (Nat × Session)
  wss : List WsConn
  nextHandlerId : Nat
  killCalls : Nat
  disposeCalls : Nat
deriving DecidableEq

def emptyState : ServerState :=
  { sessions := [], wss := [], nextHandlerId := 0, killCalls := 0, disposeCalls := 0 }

/-- `sessions[pid]` lookup. -/
def lookupSession (s : ServerState) (pid : Nat) : Option Session :=
  (s.sessions.find? (fun p => p.1 == pid)).map (fun p => p.2)

/-- `sessions[pid] = sess` assignment (JS object: key becomes unique). -/
def insertSession (s : ServerState) (pid : Nat) (sess : Session) : ServerState :=
  { s with sessions := (pid, sess) :: s.sessions.filter (fun p => !(p.1 == pid)) }

/-- Update every connection with the given id (ids are kept distinct by
the scripts and theorems below, mirroring websocket object identity). -/
def updateWs (wss : List WsConn) (w : Nat) (f : WsConn → WsConn) : List WsConn :=
  wss.map (fun c => if c.id == w then f c else c)

/-- Whether the websocket with id `w` is currently open. -/
def wsIsOpen (wss : List WsConn) (w : Nat) : Bool :=
  match wss.find? (fun c => c.id == w) with
  | some c => c.isOpen
  | none => false

/-- `POST /terminals` (lines 31-81): spawn the pty with
`cols: colsInt || 80, rows: rowsInt || 24`, build the matching `xterm`,
register the session under `term.pid`, install the `temporaryDisposable`
buffer-appending listener, and respond with the pid.  The pid chosen by
the operating system is passed in as `pid`.  Returns the new state and
the response body (the session identifier). -/
def createSession (s : ServerState) (cols rows : String) (pid : Nat) : ServerState × Nat :=
  let colsUsed := jsOrDefault (jsParseInt cols) 80
  let rowsUsed := jsOrDefault (jsParseInt rows) 24
  let sess : Session :=
    { term := { pid := pid, cols := some colsUsed, rows := some rowsUsed, exitListeners := 0 }
      xterm := { cols := some colsUsed, rows := some rowsUsed, writes := [] }
      addonDisposed := false
      terminalData := []
      listeners := [Listener.temp]
      dataHandler := none }
  (insertSession s pid sess, pid)

/-- One micro-step performed while processing a pty data event, used to
state the "write to screen model before forwarding" ordering. -/
inductive MicroAction where
  | writeScreen (chunk : Chunk)
  | sendWs (ws : Nat) (chunk : Chunk)
  | appendBuffer (chunk : Chunk)
deriving DecidableEq

/-- Fire the active pty `onData` listeners in registration order for one
emitted chunk.  `temp` appends to `terminalData` (line 75-77); a data
handler writes the chunk into the `xterm` model and then sends it to its
websocket (lines 128-139; the send is swallowed when the socket is
closed).  Also returns the ordered list of micro-actions performed. -/
def runListeners (chunk : Chunk) :
    List Listener → Session → List WsConn → Session × List WsConn × List MicroAction
  | [], sess, wss => (sess, wss, [])
  | Listener.temp :: rest, sess, wss =>
    let r := runListeners chunk rest
      { sess with terminalData := sess.terminalData ++ chunk } wss
    (r.1, r.2.1, MicroAction.appendBuffer chunk :: r.2.2)
  | Listener.dh _ w :: rest, sess, wss =>
    let sess' := { sess with xterm :=
      { sess.xterm with writes := sess.xterm.writes ++ [chunk] } }
    if wsIsOpen wss w then
      let r := runListeners chunk rest sess'
        (updateWs wss w (fun c => { c with received := c.received ++ [chunk] }))
      (r.1, r.2.1, MicroAction.writeScreen chunk :: MicroAction.sendWs w chunk :: r.2.2)
    else
      let r := runListeners chunk rest sess' wss
      (r.1, r.2.1, MicroAction.writeScreen chunk :: r.2.2)

/-- The pty of session `pid` emits one output chunk: all of its active
`onData` listeners fire in registration order. -/
def dataEvent (s : ServerState) (pid : Nat) (chunk : Chunk) : ServerState :=
  match lookupSession s pid with
  | none => s
  | some sess =>
    let r := runListeners chunk sess.listeners sess s.wss
    { insertSession s pid r.1 with wss := r.2.1 }

/-- The micro-actions performed while handling one data event. -/
def dataEventActions (s : ServerState) (pid : Nat) (chunk : Chunk) : List MicroAction :=
  match lookupSession s pid with
  | none => []
  | some sess => (runListeners chunk sess.listeners sess s.wss).2.2

/-- The websocket connection handler (lines 113-139): a new websocket
`wsId` attaches to session `pid`.  If the session is absent the handler
throws on destructuring (`none`).  Otherwise: if the
`temporaryDisposable` is present AND `terminalData` is non-empty, the
temporary listener is disposed and the buffer is written into the
`xterm` model (the buffer itself is NOT cleared); then
`sessions[pid].terminalData` is sent as the websocket's first message;
then a new data handler is installed and stored in
`sessions[pid].dataHandler` (overwriting, not disposing, any previous
one). -/
def connect (s : ServerState) (pid : Nat) (wsId : Nat) : Option ServerState :=
  match lookupSession s pid with
  | none => none
  | some sess =>
    let sess1 :=
      if sess.listeners.contains Listener.temp && !(sess.terminalData == []) then
        { sess with
          listeners := sess.listeners.filter (fun l => !(l == Listener.temp))
          xterm := { sess.xterm with writes := sess.xterm.writes ++ [sess.terminalData] } }
      else sess
    let hid := s.nextHandlerId
    let sess2 := { sess1 with
      listeners := sess1.listeners ++ [Listener.dh hid wsId]
      dataHandler := some hid }
    let conn : WsConn :=
      { id := wsId, pid := pid, isOpen := true, received := [sess1.terminalData] }
    some { insertSession s pid sess2 with
           wss := s.wss ++ [conn]
           nextHandlerId := hid + 1 }

/-- The websocket `close` handler (lines 145-154): mark the socket
closed; then, if the session still exists and has a `dataHandler`,
dispose that handler (remove its listener), delete the field, and set
`terminalData` to the serialize addon's output for the current `xterm`
state.  `σ` is the external serializer. -/
def wsClose (σ : List Chunk → Chunk) (s : ServerState) (wsId : Nat) : ServerState :=
  match s.wss.find? (fun c => c.id == wsId) with
  | none => s
  | some conn =>
    let s1 := { s with wss := updateWs s.wss wsId (fun c => { c with isOpen := false }) }
    match lookupSession s1 conn.pid with
    | none => s1
    | some sess =>
      match sess.dataHandler with
      | none => s1
      | some h =>
        let sess' := { sess with
          listeners := sess.listeners.filter (fun l =>
            match l with
            | Listener.dh h2 _ => !(h2 == h)
            | Listener.temp => true)
          dataHandler := none
          terminalData := σ sess.xterm.writes }
        insertSession s1 conn.pid sess'

/-- `POST /terminals/:pid/size` (lines 83-95): looks up `sessions[pid]`
and destructures it; on an unknown pid this throws a `TypeError`
(modelled as `none`).  Otherwise both the pty and the `xterm` model are
resized to the parsed query values (`NaN` = `none` stored as-is; the
external libraries' reaction to invalid dimensions is outside the
model). -/
def resizeSession (s : ServerState) (pid : Nat) (cols rows : String) : Option ServerState :=
  match lookupSession s pid with
  | none => none
  | some sess =>
    let c := jsParseInt cols
    let r := jsParseInt rows
    some (insertSession s pid { sess with
      term := { sess.term with cols := c, rows := r }
      xterm := { sess.xterm with cols := c, rows := r } })

/-- `POST /terminals/:pid/terminate` (lines 158-194): unknown pid is a
silent no-op.  Otherwise: if a `dataHandler` is present it is disposed
and deleted, and if `terminalData` is non-empty the serialize addon is
disposed and `terminalData` is set to its output (the source disposes the
addon first and then calls `serialize()` on it; the model records the
disposal flag and the serialized value).  Then an `onExit` teardown
callback is registered and `term.kill()` is called — both happen on
every invocation that finds the session. -/
def terminate (σ : List Chunk → Chunk) (s : ServerState) (pid : Nat) : ServerState :=
  match lookupSession s pid with
  | none => s
  | some sess =>
    let sess1 :=
      match sess.dataHandler with
      | some h =>
        let sessA := { sess with
          listeners := sess.listeners.filter (fun l =>
            match l with
            | Listener.dh h2 _ => !(h2 == h)
            | Listener.temp => true)
          dataHandler := none }
        if sessA.terminalData == [] then sessA
        else { sessA with addonDisposed := true, terminalData := σ sessA.xterm.writes }
      | none => sess
    let sess2 := { sess1 with term :=
      { sess1.term with exitListeners := sess1.term.exitListeners + 1 } }
    { insertSession s pid sess2 with killCalls := s.killCalls + 1 }

/-- The pty's exit event for session `pid` fires: every `onExit`
callback registered on it runs (lines 182-187), each disposing the
`xterm` model and deleting `sessions[pid]` (the deletion is idempotent).
If no callback was ever registered — the source registers them only
inside the terminate handler — nothing at all happens. -/
def exitEvent (s : ServerState) (pid : Nat) : ServerState :=
  match lookupSession s pid with
  | none => s
  | some sess =>
    if sess.term.exitListeners = 0 then s
    else
      { s with
        sessions := s.sessions.filter (fun p => !(p.1 == pid))
        disposeCalls := s.disposeCalls + sess.term.exitListeners }

/-- Concatenating serializer: one admissible behaviour of the external
serialize addon. -/
def joinFlat (l : List Chunk) : Chunk := l.flatten

/-- Marking serializer: another admissible behaviour of the external
serialize addon, whose output is visibly distinct from the raw byte
stream fed into the screen model (as the real addon's escape-sequence
re-encoding is). -/
def snapSerialize (l : List Chunk) : Chunk := "SNAPSHOT:".toList ++ l.flatten

/-! ## Helper lemmas -/

theorem lookup_insert_self (s : ServerState) (pid : Nat) (sess : Session) :
    lookupSession (insertSession s pid sess) pid = some sess := by
  simp [lookupSession, insertSession]

/-- A data event touches `terminalData` only through the `temp` listener. -/
theorem runListeners_terminalData_of_no_temp (chunk : Chunk) :
    ∀ (ls : List Listener) (sess : Session) (wss : List WsConn),
      Listener.temp ∉ ls →
      (runListeners chunk ls sess wss).1.terminalData = sess.terminalData := by
  intro ls
  induction ls with
  | nil => intro sess wss _; rfl
  | cons l rest ih =>
    intro sess wss h
    cases l with
    | temp => exact absurd (List.mem_cons_self _ _) h
    | dh i w =>
      have h' : Listener.temp ∉ rest := fun hm => h (List.mem_cons_of_mem _ hm)
      simp only [runListeners]
      split
      · exact ih _ _ h'
      · exact ih _ _ h'

/-- Appending to a socket's transcript does not change which sockets are
open. -/
theorem wsIsOpen_update_received (wss : List WsConn) (v w : Nat) (k : Chunk) :
    wsIsOpen (updateWs wss v (fun c => { c with received := c.received ++ [k] })) w
      = wsIsOpen wss w := by
  induction wss with
  | nil => rfl
  | cons c rest ih =>
    simp only [wsIsOpen, updateWs, List.map_cons]
    by_cases hv : (c.id == v) = true
    · by_cases hw : (c.id == w) = true
      · simp [hv, hw]
      · simp only [hv, if_true]
        rw [List.find?_cons_of_neg _ (by simpa using hw),
            List.find?_cons_of_neg _ (by simpa using hw)]
        simpa [wsIsOpen, updateWs] using ih
    · by_cases hw : (c.id == w) = true
      · simp [hv, hw]
      · simp only [hv, if_false]
        rw [List.find?_cons_of_neg _ (by simpa using hw),
            List.find?_cons_of_neg _ (by simpa using hw)]
        simpa [wsIsOpen, updateWs] using ih

/-- Every open socket that some data handler in the listener list is
bound to is sent the emitted chunk. -/
theorem runListeners_send_mem (chunk : Chunk) :
    ∀ (ls : List Listener) (sess : Session) (wss : List WsConn) (i w : Nat),
      Listener.dh i w ∈ ls → wsIsOpen wss w = true →
      MicroAction.sendWs w chunk ∈ (runListeners chunk ls sess wss).2.2 := by
  intro ls
  induction ls with
  | nil => intro sess wss i w hm _; cases hm
  | cons l rest ih =>
    intro sess wss i w hm hw
    cases l with
    | temp =>
      have hm' : Listener.dh i w ∈ rest := by
        cases hm with
        | tail _ h => exact h
      simp only [runListeners]
      exact List.mem_cons_of_mem _ (ih _ _ i w hm' hw)
    | dh j v =>
      by_cases hveq : (Listener.dh j v : Listener) = Listener.dh i w
      · cases hveq
        simp only [runListeners, hw, if_true]
        exact List.mem_cons_of_mem _ (List.mem_cons_self _ _)
      · have hm' : Listener.dh i w ∈ rest := by
          cases hm with
          | head => exact absurd rfl hveq
          | tail _ h => exact h
        simp only [runListeners]
        split
        · refine List.mem_cons_of_mem _ (List.mem_cons_of_mem _ ?_)
          exact ih _ _ i w hm' (by rw [wsIsOpen_update_received]; exact hw)
        · exact List.mem_cons_of_mem _ (ih _ _ i w hm' hw)

/-- Each forwarded chunk is preceded in the micro-action order by its
write into the screen model. -/
theorem runListeners_send_after_write (chunk : Chunk) :
    ∀ (ls : List Listener) (sess : Session) (wss : List WsConn) (i w : Nat) (c : Chunk),
      ((runListeners chunk ls sess wss).2.2).get? i = some (MicroAction.sendWs w c) →
      c = chunk ∧ ∃ j, j < i ∧
        ((runListeners chunk ls sess wss).2.2).get? j = some (MicroAction.writeScreen c) := by
  intro ls
  induction ls with
  | nil => intro sess wss i w c h; simp [runListeners] at h
  | cons l rest ih =>
    intro sess wss i w c h
    cases l with
    | temp =>
      simp only [runListeners] at h ⊢
      cases i with
      | zero => simp at h
      | succ n =>
        rw [List.get?_cons_succ] at h
        obtain ⟨hc, j, hj, hg⟩ := ih _ _ n w c h
        exact ⟨hc, j + 1, Nat.succ_lt_succ hj, by rw [List.get?_cons_succ]; exact hg⟩
    | dh hid v =>
      simp only [runListeners] at h ⊢
      by_cases hopen : wsIsOpen wss v = true
      · rw [if_pos hopen] at h ⊢
        cases i with
        | zero => simp at h
        | succ n =>
          cases n with
          | zero =>
            rw [List.get?_cons_succ, List.get?_cons_zero] at h
            obtain ⟨rfl, rfl⟩ : v = w ∧ chunk = c := by
              injection h with h'; injection h' with h1 h2; exact ⟨h1, h2⟩
            exact ⟨rfl, 0, Nat.zero_lt_one, rfl⟩
          | succ m =>
            rw [List.get?_cons_succ, List.get?_cons_succ] at h
            obtain ⟨hc, j, hj, hg⟩ := ih _ _ m w c h
            refine ⟨hc, j + 2, by omega, ?_⟩
            rw [List.get?_cons_succ, List.get?_cons_succ]
            exact hg
      · rw [if_neg hopen] at h ⊢
        cases i with
        | zero => simp at h
        | succ n =>
          rw [List.get?_cons_succ] at h
          obtain ⟨hc, j, hj, hg⟩ := ih _ _ n w c h
          exact ⟨hc, j + 1, Nat.succ_lt_succ hj, by rw [List.get?_cons_succ]; exact hg⟩

/-- `parsesNonzeroB x = false` means JS `parseInt(x) || d` yields `d`. -/
theorem jsOrDefault_of_not_nonzero (x : String) (d : Int)
    (h : parsesNonzeroB x = false) : jsOrDefault (jsParseInt x) d = d := by
  unfold parsesNonzeroB at h
  unfold jsOrDefault
  cases hp : jsParseInt x with
  | none => rfl
  | some n =>
    rw [hp] at h
    simp at h
    simp [h]

theorem lookup_insert_self_ws (s : ServerState) (pid : Nat) (sess : Session)
    (w : List WsConn) :
    lookupSession { insertSession s pid sess with wss := w } pid = some sess :=
  lookup_insert_self s pid sess

theorem lookup_insert_self_ws_nh (s : ServerState) (pid : Nat) (sess : Session)
    (w : List WsConn) (n : Nat) :
    lookupSession { insertSession s pid sess with wss := w, nextHandlerId := n } pid
      = some sess :=
  lookup_insert_self s pid sess

/-- Evaluated form of `connect` when the replay guard of line 120 fires
(`temporaryDisposable` present and `terminalData` non-empty). -/
theorem connect_eq_of_guard (s : ServerState) (pid wsId : Nat) (sess : Session)
    (hs : lookupSession s pid = some sess)
    (hg : (sess.listeners.contains Listener.temp && !(sess.terminalData == [])) = true) :
    connect s pid wsId = some { insertSession s pid
      { sess with
        listeners := sess.listeners.filter (fun l => !(l == Listener.temp))
          ++ [Listener.dh s.nextHandlerId wsId]
        xterm := { sess.xterm with writes := sess.xterm.writes ++ [sess.terminalData] }
        dataHandler := some s.nextHandlerId } with
      wss := s.wss ++ [{ id := wsId, pid := pid, isOpen := true,
                         received := [sess.terminalData] }]
      nextHandlerId := s.nextHandlerId + 1 } := by
  simp only [connect, hs, hg, if_true]

/-- Evaluated form of `connect` when the replay guard of line 120 does
not fire. -/
theorem connect_eq_of_no_guard (s : ServerState) (pid wsId : Nat) (sess : Session)
    (hs : lookupSession s pid = some sess)
    (hg : (sess.listeners.contains Listener.temp && !(sess.terminalData == [])) = false) :
    connect s pid wsId = some { insertSession s pid
      { sess with
        listeners := sess.listeners ++ [Listener.dh s.nextHandlerId wsId]
        dataHandler := some s.nextHandlerId } with
      wss := s.wss ++ [{ id := wsId, pid := pid, isOpen := true,
                         received := [sess.terminalData] }]
      nextHandlerId := s.nextHandlerId + 1 } := by
  simp only [connect, hs, hg, Bool.false_eq_true, if_false]

/-- Evaluated form of `dataEvent` on a registered session. -/
theorem dataEvent_eq (s : ServerState) (pid : Nat) (c : Chunk) (sess : Session)
    (hs : lookupSession s pid = some sess) :
    dataEvent s pid c =
      { insertSession s pid (runListeners c sess.listeners sess s.wss).1 with
        wss := (runListeners c sess.listeners sess s.wss).2.1 } := by
  simp only [dataEvent, hs]

/-- An open socket stays found-open after appending further sockets. -/
theorem wsIsOpen_append_left (wss l : List WsConn) (w : Nat)
    (h : wsIsOpen wss w = true) : wsIsOpen (wss ++ l) w = true := by
  unfold wsIsOpen at h ⊢
  cases hf : wss.find? (fun c => c.id == w) with
  | none => rw [hf] at h; simp at h
  | some c =>
    rw [hf] at h
    have h' : c.isOpen = true := h
    simp [List.find?_append, hf, h']

/-- A socket id absent from the prefix is looked up in the suffix. -/
theorem wsIsOpen_append_of_none (wss : List WsConn) (conn : WsConn) (w : Nat)
    (h : wss.find? (fun c => c.id == w) = none) (hc : conn.id = w)
    (ho : conn.isOpen = true) : wsIsOpen (wss ++ [conn]) w = true := by
  unfold wsIsOpen
  simp [List.find?_append, h, hc, ho]

/-- In any data event on a registered session, a data handler bound to an
open socket gets the chunk forwarded to that socket. -/
theorem sends_in_dataEvent (s : ServerState) (pid : Nat) (sess : Session)
    (i w : Nat) (hs : lookupSession s pid = some sess)
    (hmem : Listener.dh i w ∈ sess.listeners)
    (hopen : wsIsOpen s.wss w = true) (c : Chunk) :
    MicroAction.sendWs w c ∈ dataEventActions s pid c := by
  simp only [dataEventActions, hs]
  exact runListeners_send_mem c sess.listeners sess s.wss i w hmem hopen

/-! ## Claim theorems -/

/-- **C6** (confirmed): for every output chunk processed by the data
fan-out (the pty `onData` handlers of `dataEvent`), every forwarding of
the chunk to a websocket is preceded in the micro-action order by the
write of that same chunk into the screen model (source lines 131-135:
`xterm.write(...)` runs before `ws.send(data)` inside the same `try`),
so an attached client never observes output bytes not also committed to
the screen model. -/
theorem c6_write_screen_before_send (s : ServerState) (pid : Nat) (chunk : Chunk)
    (i w : Nat) (c : Chunk)
    (h : (dataEventActions s pid chunk).get? i = some (MicroAction.sendWs w c)) :
    c = chunk ∧ ∃ j, j < i ∧
      (dataEventActions s pid chunk).get? j = some (MicroAction.writeScreen c) := by
  cases hl : lookupSession s pid with
  | none =>
    simp only [dataEventActions, hl] at h
    simp at h
  | some sess =>
    simp only [dataEventActions, hl] at h ⊢
    exact runListeners_send_after_write chunk sess.listeners sess s.wss i w c h

def c6S1 : ServerState := (createSession emptyState "80" "24" 1).1
def c6S2 : ServerState := dataEvent c6S1 1 ['h']
/-- A session with buffered output `['h']` whose transport `3` has just
attached. -/
def c6Pre : ServerState := (connect c6S2 1 3).getD emptyState

theorem c6_write_screen_before_send_witness :
    (['x'] : Chunk) = ['x'] ∧ ∃ j, j < 1 ∧
      (dataEventActions c6Pre 1 ['x']).get? j = some (MicroAction.writeScreen ['x']) :=
  c6_write_screen_before_send c6Pre 1 ['x'] 1 3 ['x'] (by decide)

/-- **C7** (confirmed): when the websocket tracked for a live session
closes and the session has a data handler, the close handler (source
lines 145-154) removes that fan-out subscription, clears the
`dataHandler` field, and sets `terminalData` to the serialize addon's
output for the current screen state — while the pty handle is left
completely unchanged (no kill, no exit listener, no resize). -/
theorem c7_detach_frame (σ : List Chunk → Chunk) (s : ServerState) (wsId : Nat)
    (conn : WsConn) (sess : Session) (h : Nat)
    (hfind : s.wss.find? (fun c => c.id == wsId) = some conn)
    (hsess : lookupSession s conn.pid = some sess)
    (hdh : sess.dataHandler = some h) :
    ∃ sess', lookupSession (wsClose σ s wsId) conn.pid = some sess' ∧
      sess'.terminalData = σ sess.xterm.writes ∧
      sess'.dataHandler = none ∧
      (∀ w, Listener.dh h w ∉ sess'.listeners) ∧
      sess'.term = sess.term ∧
      sess'.xterm = sess.xterm ∧
      (wsClose σ s wsId).killCalls = s.killCalls := by
  have hsess1 : lookupSession
      { s with wss := updateWs s.wss wsId (fun c => { c with isOpen := false }) }
      conn.pid = some sess := hsess
  simp only [wsClose, hfind, hsess1, hdh]
  refine ⟨_, lookup_insert_self _ _ _, rfl, rfl, ?_, rfl, rfl, rfl⟩
  intro w hw
  simp only [List.mem_filter] at hw
  simpa using hw.2

/-- The session record as `createSession` builds it at the default
80×24 size for pid `p`. -/
def freshSess (p : Nat) : Session :=
  { term := { pid := p, cols := some 80, rows := some 24, exitListeners := 0 }
    xterm := { cols := some 80, rows := some 24, writes := [] }
    addonDisposed := false
    terminalData := []
    listeners := [Listener.temp]
    dataHandler := none }

def bufS1 : ServerState := (createSession emptyState "80" "24" 6).1
/-- Session 6 that has buffered the output `"hi"` with no transport yet. -/
def bufS2 : ServerState := dataEvent bufS1 6 ['h', 'i']
/-- The session record inside `bufS2`. -/
def bufSess : Session := { freshSess 6 with terminalData := ['h', 'i'] }
/-- Session 6 with transport 20 attached after buffering `"hi"`. -/
def attachedS : ServerState := (connect bufS2 6 20).getD emptyState
def attachedConn : WsConn := { id := 20, pid := 6, isOpen := true, received := [['h', 'i']] }
/-- The session record inside `attachedS`. -/
def attachedSess : Session :=
  { term := { pid := 6, cols := some 80, rows := some 24, exitListeners := 0 }
    xterm := { cols := some 80, rows := some 24, writes := [['h', 'i']] }
    addonDisposed := false
    terminalData := ['h', 'i']
    listeners := [Listener.dh 0 20]
    dataHandler := some 0 }

theorem c7_detach_frame_witness :
    ∃ sess', lookupSession (wsClose snapSerialize attachedS 20) attachedConn.pid = some sess' ∧
      sess'.terminalData = snapSerialize attachedSess.xterm.writes ∧
      sess'.dataHandler = none ∧
      (∀ w, Listener.dh 0 w ∉ sess'.listeners) ∧
      sess'.term = attachedSess.term ∧
      sess'.xterm = attachedSess.xterm ∧
      (wsClose snapSerialize attachedS 20).killCalls = attachedS.killCalls :=
  c7_detach_frame snapSerialize attachedS 20 attachedConn attachedSess 0
    (by decide) (by decide) (by decide)

/-- **C10** (confirmed): a create-session request registers the new
session under the spawned pty's pid and responds with that pid; the pty
and the screen model are created with identical dimensions, namely the
parsed query values with fallback `cols || 80` and `rows || 24`, so a
query dimension that does not parse to a nonzero integer yields the
default 80 columns / 24 rows in both (source lines 31-81). -/
theorem c10_create_session_spec (s : ServerState) (cols rows : String) (pid : Nat) :
    (createSession s cols rows pid).2 = pid ∧
    ∃ sess, lookupSession (createSession s cols rows pid).1 pid = some sess ∧
      sess.term.pid = pid ∧
      sess.term.cols = some (jsOrDefault (jsParseInt cols) 80) ∧
      sess.term.rows = some (jsOrDefault (jsParseInt rows) 24) ∧
      sess.xterm.cols = sess.term.cols ∧
      sess.xterm.rows = sess.term.rows ∧
      (parsesNonzeroB cols = false → sess.term.cols = some 80) ∧
      (parsesNonzeroB rows = false → sess.term.rows = some 24) := by
  refine ⟨rfl, _, lookup_insert_self _ _ _, rfl, rfl, rfl, rfl, rfl, ?_, ?_⟩
  · intro hc
    simpa using congrArg some (jsOrDefault_of_not_nonzero cols 80 hc)
  · intro hr
    simpa using congrArg some (jsOrDefault_of_not_nonzero rows 24 hr)

theorem c10_create_session_spec_witness :
    (createSession emptyState "abc" "0" 9).2 = 9 ∧
    ∃ sess, lookupSession (createSession emptyState "abc" "0" 9).1 9 = some sess ∧
      sess.term.pid = 9 ∧
      sess.term.cols = some (jsOrDefault (jsParseInt "abc") 80) ∧
      sess.term.rows = some (jsOrDefault (jsParseInt "0") 24) ∧
      sess.xterm.cols = sess.term.cols ∧
      sess.xterm.rows = sess.term.rows ∧
      (parsesNonzeroB "abc" = false → sess.term.cols = some 80) ∧
      (parsesNonzeroB "0" = false → sess.term.rows = some 24) :=
  c10_create_session_spec emptyState "abc" "0" 9

def c1S1 : ServerState := (createSession emptyState "80" "24" 5).1
/-- A transport attaches before any output has been produced. -/
def c1S2 : ServerState := (connect c1S1 5 40).getD emptyState
def c1S3 : ServerState := dataEvent c1S2 5 ['x']

/-- **C1** counterexample: if a transport attaches before any output,
the replay guard `temporaryDisposable && terminalData` (line 120) is
falsy, so the buffering listener survives the attach.  The next output
chunk is then appended to the buffer while the open, attached transport
is simultaneously forwarded the same chunk: buffering and forwarding are
active at once, and `outputBuffer` is non-empty while a transport is
attached — refuting the claimed invariant. -/
theorem c1_counterexample :
    (connect c1S1 5 40).isSome = true ∧
    (lookupSession c1S3 5).map (fun q =>
      (q.terminalData, q.dataHandler, q.listeners.contains Listener.temp))
      = some (['x'], some 0, true) ∧
    wsIsOpen c1S3.wss 40 = true ∧
    (c1S3.wss.find? (fun c => c.id == 40)).map WsConn.received = some [[], ['x']] := by
  decide

/-- **C1** amended: the exclusivity holds only when the attach found
buffered output: attaching to a session whose buffer is non-empty (and
whose buffering listener is still installed) disposes the buffering
listener, and afterwards no data event changes the buffer.  (If the
transport attaches before any output, the buffering listener survives
and the buffer keeps growing while attached — see the counterexample.) -/
theorem c1_buffer_stops_after_replay_attach (s : ServerState) (pid wsId : Nat)
    (sess : Session)
    (hs : lookupSession s pid = some sess)
    (htemp : Listener.temp ∈ sess.listeners)
    (hbuf : sess.terminalData ≠ []) :
    ∃ s', connect s pid wsId = some s' ∧
      ∃ sess', lookupSession s' pid = some sess' ∧
        Listener.temp ∉ sess'.listeners ∧
        ∀ c, (lookupSession (dataEvent s' pid c) pid).map Session.terminalData
              = some sess'.terminalData := by
  have hg : (sess.listeners.contains Listener.temp && !(sess.terminalData == [])) = true := by
    have h1 : sess.listeners.contains Listener.temp = true :=
      List.elem_eq_true_of_mem htemp
    have h2 : (sess.terminalData == []) = false := beq_eq_false_iff_ne.mpr hbuf
    simp [h1, h2, htemp]
  rw [connect_eq_of_guard s pid wsId sess hs hg]
  refine ⟨_, rfl, _, lookup_insert_self_ws_nh _ _ _ _ _, ?_, ?_⟩
  · intro hmem
    simp [List.mem_append, List.mem_filter] at hmem
  · intro c
    rw [dataEvent_eq _ pid c _ (lookup_insert_self_ws_nh _ _ _ _ _),
        lookup_insert_self_ws]
    refine congrArg some (runListeners_terminalData_of_no_temp c _ _ _ ?_)
    intro hmem
    simp [List.mem_append, List.mem_filter] at hmem

theorem c1_buffer_stops_after_replay_attach_witness :
    ∃ s', connect bufS2 6 21 = some s' ∧
      ∃ sess', lookupSession s' 6 = some sess' ∧
        Listener.temp ∉ sess'.listeners ∧
        ∀ c, (lookupSession (dataEvent s' 6 c) 6).map Session.terminalData
              = some sess'.terminalData :=
  c1_buffer_stops_after_replay_attach bufS2 6 21 bufSess
    (by decide) (by decide) (by decide)

def c2S1 : ServerState := (createSession emptyState "80" "24" 5).1
def c2S2 : ServerState := dataEvent c2S1 5 ['h', 'i']
def c2S3 : ServerState := (connect c2S2 5 30).getD emptyState
def c2S4 : ServerState := (connect c2S3 5 31).getD emptyState

/-- **C2** counterexample: after transport 30 attaches and is handed the
buffered bytes `"hi"`, `terminalData` still holds `"hi"` — the source
never clears it (no assignment on the attach path) — and a second
transport 31 attaching with no intervening output is sent the same stale
buffered bytes as its first message. -/
theorem c2_counterexample :
    (connect c2S2 5 30).isSome = true ∧
    (lookupSession c2S3 5).map Session.terminalData = some ['h', 'i'] ∧
    (connect c2S3 5 31).isSome = true ∧
    (c2S4.wss.find? (fun c => c.id == 31)).map WsConn.received = some [['h', 'i']] := by
  decide

/-- **C2** amended: the attach hands the buffered bytes to the transport
but does **not** clear the buffer: `terminalData` is unchanged by
`connect`, and is only overwritten later by a detach or terminate
(which replace it with a serialized snapshot). -/
theorem c2_buffer_retained_on_attach (s : ServerState) (pid wsId : Nat)
    (sess : Session) (hs : lookupSession s pid = some sess) :
    ∃ s', connect s pid wsId = some s' ∧
      (lookupSession s' pid).map Session.terminalData = some sess.terminalData := by
  by_cases hg : (sess.listeners.contains Listener.temp && !(sess.terminalData == [])) = true
  · rw [connect_eq_of_guard s pid wsId sess hs hg]
    exact ⟨_, rfl, by rw [lookup_insert_self_ws_nh]; rfl⟩
  · rw [connect_eq_of_no_guard s pid wsId sess hs (by simpa using hg)]
    exact ⟨_, rfl, by rw [lookup_insert_self_ws_nh]; rfl⟩

theorem c2_buffer_retained_on_attach_witness :
    ∃ s', connect bufS2 6 22 = some s' ∧
      (lookupSession s' 6).map Session.terminalData = some bufSess.terminalData :=
  c2_buffer_retained_on_attach bufS2 6 22 bufSess (by decide)

def c3S1 : ServerState := (createSession emptyState "80" "24" 5).1
def c3S2 : ServerState := dataEvent c3S1 5 ['a']
def c3S3 : ServerState := (connect c3S2 5 10).getD emptyState
def c3S4 : ServerState := (connect c3S3 5 11).getD emptyState
def c3S5 : ServerState := dataEvent c3S4 5 ['b']

/-- **C3** counterexample: transport 10 is attached, then transport 11
attaches (the session's `dataHandler` field now tracks handler 1), and
the process emits `"b"`.  The first transport still receives `"b"` —
the old data handler is never disposed on a new connection (line 128
merely overwrites the field), so supersession does not stop the first
transport's fan-out.  The screen model also receives the chunk twice,
once per surviving handler. -/
theorem c3_counterexample :
    (lookupSession c3S4 5).map Session.dataHandler = some (some 1) ∧
    (c3S5.wss.find? (fun c => c.id == 10)).map WsConn.received
      = some [['a'], ['b']] ∧
    (lookupSession c3S5 5).map (fun q => q.xterm.writes)
      = some [['a'], ['b'], ['b']] := by
  decide

/-- **C3** amended: attaching a second transport does not supersede the
first: the old data handler stays subscribed (only the stored disposable
reference is overwritten), so while both sockets are open every
subsequent output chunk is forwarded to the old transport as well as to
the new one (and is written to the screen model once per handler). -/
theorem c3_both_transports_receive (s : ServerState) (pid wsId : Nat)
    (sess : Session) (i w0 : Nat)
    (hs : lookupSession s pid = some sess)
    (hold : Listener.dh i w0 ∈ sess.listeners)
    (hopen : wsIsOpen s.wss w0 = true)
    (hfresh : s.wss.find? (fun c => c.id == wsId) = none) :
    ∃ s', connect s pid wsId = some s' ∧
      ∀ c, MicroAction.sendWs w0 c ∈ dataEventActions s' pid c ∧
           MicroAction.sendWs wsId c ∈ dataEventActions s' pid c := by
  by_cases hg : (sess.listeners.contains Listener.temp && !(sess.terminalData == [])) = true
  · rw [connect_eq_of_guard s pid wsId sess hs hg]
    refine ⟨_, rfl, fun c => ?_⟩
    constructor
    · refine sends_in_dataEvent _ pid _ i w0 (lookup_insert_self_ws_nh _ _ _ _ _) ?_ ?_ c
      · exact List.mem_append_left _ (List.mem_filter.mpr ⟨hold, by simp⟩)
      · exact wsIsOpen_append_left _ _ _ hopen
    · refine sends_in_dataEvent _ pid _ s.nextHandlerId wsId
        (lookup_insert_self_ws_nh _ _ _ _ _) ?_ ?_ c
      · exact List.mem_append_right _ (List.mem_singleton.mpr rfl)
      · exact wsIsOpen_append_of_none _ _ _ hfresh rfl rfl
  · rw [connect_eq_of_no_guard s pid wsId sess hs (by simpa using hg)]
    refine ⟨_, rfl, fun c => ?_⟩
    constructor
    · refine sends_in_dataEvent _ pid _ i w0 (lookup_insert_self_ws_nh _ _ _ _ _) ?_ ?_ c
      · exact List.mem_append_left _ hold
      · exact wsIsOpen_append_left _ _ _ hopen
    · refine sends_in_dataEvent _ pid _ s.nextHandlerId wsId
        (lookup_insert_self_ws_nh _ _ _ _ _) ?_ ?_ c
      · exact List.mem_append_right _ (List.mem_singleton.mpr rfl)
      · exact wsIsOpen_append_of_none _ _ _ hfresh rfl rfl

theorem c3_both_transports_receive_witness :
    ∃ s', connect attachedS 6 21 = some s' ∧
      ∀ c, MicroAction.sendWs 20 c ∈ dataEventActions s' 6 c ∧
           MicroAction.sendWs 21 c ∈ dataEventActions s' 6 c :=
  c3_both_transports_receive attachedS 6 21 attachedSess 0 20
    (by decide) (by decide) (by decide) (by decide)

def c4S1 : ServerState := (createSession emptyState "80" "24" 7).1
def c4S2 : ServerState := terminate joinFlat c4S1 7
def c4S3 : ServerState := terminate joinFlat c4S2 7
def c4S4 : ServerState := exitEvent c4S3 7

/-- **C4** counterexample: a second terminate issued before the pty's
exit event has fired is not a no-op: the session is still registered (it
is removed only inside the `onExit` callback), so the handler registers a
second `onExit` callback and calls `term.kill()` again.  The run
terminate–terminate–exit performs two kills and two screen-model
disposals, not one teardown sequence. -/
theorem c4_counterexample :
    c4S3 ≠ c4S2 ∧
    c4S2.killCalls = 1 ∧ c4S3.killCalls = 2 ∧
    c4S4.killCalls = 2 ∧ c4S4.disposeCalls = 2 ∧
    lookupSession c4S4 7 = none := by
  decide

/-- **C4** amended: terminate is a no-op only once the exit event has
removed the session from the registry; any terminate that still finds
the session (including a repeated one issued before the exit event)
kills again and registers another exit listener. -/
theorem c4_terminate_noop_after_removal (σ : List Chunk → Chunk)
    (s : ServerState) (pid : Nat) (h : lookupSession s pid = none) :
    terminate σ s pid = s := by
  simp only [terminate, h]

theorem c4_terminate_noop_after_removal_witness :
    terminate joinFlat c4S4 7 = c4S4 :=
  c4_terminate_noop_after_removal joinFlat c4S4 7 (by decide)

/-- **C5** counterexample: a resize naming an unknown session does not
complete silently or return a SessionGone signal: line 89 destructures
`sessions[pid]`, which is `undefined`, so the handler throws a
`TypeError` (modelled by `none`). -/
theorem c5_counterexample :
    resizeSession emptyState 3 "80" "24" = none := by
  decide

/-- **C5** amended: only terminate handles an unknown session gracefully
(silent no-op, line 162); resize on an unknown session faults with a
`TypeError` from destructuring the missing record instead of returning a
SessionGone signal or completing silently. -/
theorem c5_unknown_session_behavior (σ : List Chunk → Chunk)
    (s : ServerState) (pid : Nat) (cols rows : String)
    (h : lookupSession s pid = none) :
    resizeSession s pid cols rows = none ∧ terminate σ s pid = s :=
  ⟨by simp only [resizeSession, h], by simp only [terminate, h]⟩

theorem c5_unknown_session_behavior_witness :
    resizeSession emptyState 3 "80" "24" = none ∧
    terminate joinFlat emptyState 3 = emptyState :=
  c5_unknown_session_behavior joinFlat emptyState 3 "80" "24" (by decide)

/-- **C8** counterexample: on the **first** attach to a session with
buffered output `"hi"`, the first message sent to the transport is the
raw buffered byte sequence `terminalData` (line 126), not the serialize
addon's output for the current screen state: with the admissible external
serializer `snapSerialize`, the serialized current state differs from the
raw bytes that were sent.  (The real addon re-encodes the screen into
escape sequences, so its output likewise differs from the raw stream.) -/
theorem c8_counterexample :
    (connect bufS2 6 20).isSome = true ∧
    (attachedS.wss.find? (fun c => c.id == 20)).map WsConn.received
      = some [['h', 'i']] ∧
    (lookupSession attachedS 6).map (fun q => snapSerialize q.xterm.writes)
      = some ("SNAPSHOT:hi".toList) ∧
    (['h', 'i'] : Chunk) ≠ "SNAPSHOT:hi".toList := by
  decide

/-- **C8** amended: the first message sent to a newly attached transport
is the current contents of the session's `terminalData` buffer.  After a
detach this equals the serialized snapshot captured at detach time, but
on the first attach it is the raw buffered output bytes, and the buffer
is sent as-is whatever it holds. -/
theorem c8_first_message_is_buffer (s : ServerState) (pid wsId : Nat)
    (sess : Session) (hs : lookupSession s pid = some sess)
    (hfresh : s.wss.find? (fun c => c.id == wsId) = none) :
    ∃ s', connect s pid wsId = some s' ∧
      (s'.wss.find? (fun c => c.id == wsId)).map WsConn.received
        = some [sess.terminalData] := by
  by_cases hg : (sess.listeners.contains Listener.temp && !(sess.terminalData == [])) = true
  · rw [connect_eq_of_guard s pid wsId sess hs hg]
    refine ⟨_, rfl, ?_⟩
    simp [List.find?_append, hfresh]
  · rw [connect_eq_of_no_guard s pid wsId sess hs (by simpa using hg)]
    refine ⟨_, rfl, ?_⟩
    simp [List.find?_append, hfresh]

theorem c8_first_message_is_buffer_witness :
    ∃ s', connect bufS2 6 23 = some s' ∧
      (s'.wss.find? (fun c => c.id == 23)).map WsConn.received
        = some [bufSess.terminalData] :=
  c8_first_message_is_buffer bufS2 6 23 bufSess (by decide) (by decide)

def c9S1 : ServerState := (createSession emptyState "80" "24" 4).1

/-- **C9** counterexample: the source registers `onExit` callbacks only
inside the terminate handler (line 182); a session whose process exits
spontaneously — no terminate was ever requested — undergoes no teardown
at all: the state is unchanged, the session stays in the registry, and
the screen model is never disposed. -/
theorem c9_counterexample :
    exitEvent c9S1 4 = c9S1 ∧
    (lookupSession (exitEvent c9S1 4) 4).isSome = true ∧
    (exitEvent c9S1 4).disposeCalls = 0 := by
  decide

/-- **C9** amended: a spontaneous process exit triggers teardown only
through exit listeners registered by a prior terminate request; with no
such listener the exit event leaves the server state untouched (session
still registered, screen model undisposed). -/
theorem c9_spontaneous_exit_noop (s : ServerState) (pid : Nat) (sess : Session)
    (hs : lookupSession s pid = some sess)
    (hn : sess.term.exitListeners = 0) :
    exitEvent s pid = s := by
  simp [exitEvent, hs, hn]

theorem c9_spontaneous_exit_noop_witness :
    exitEvent c9S1 4 = c9S1 :=
  c9_spontaneous_exit_noop c9S1 4 (freshSess 4) (by decide) (by decide)

end AcodexServer
